import Mathlib

/-!
# Shallow embedding of `movingsign.py` (Moving Sign protocol V1.2 encoder)

Byte strings (Python 2 `str` / `bytes` / `bytearray`) are modelled as
`List Nat`, each element a byte value.  The `MovingSign` instance state is a
structure; methods that build frames are modelled as functions returning the
frame together with the (unchanged, since the source performs no attribute
assignment in them) instance state, and setters as state transformers.
-/

namespace MovingSign

/-- `NUL = '\x00'` -/
def NUL : Nat := 0x00
/-- `SOH = '\x01'` -/
def SOH : Nat := 0x01
/-- `STX = '\x02'` -/
def STX : Nat := 0x02
/-- `ETX = '\x03'` -/
def ETX : Nat := 0x03
/-- `EOT = '\x04'` -/
def EOT : Nat := 0x04
/-- `FONT_VAL = '\xFE'` -/
def FONT_VAL : Nat := 0xFE
/-- `COLOR_VAL = '\xFD'` -/
def COLOR_VAL : Nat := 0xFD

/-- `CMD_WRITE_TXT = b'A'` -/
def CMD_WRITE_TXT : List Nat := [0x41]
/-- `CMD_WRITE_VAR = b'C'` -/
def CMD_WRITE_VAR : List Nat := [0x43]
/-- `CMD_WRITE_GFX = b'E'` -/
def CMD_WRITE_GFX : List Nat := [0x45]
/-- `CMD_WRITE_SPC = b'W'` -/
def CMD_WRITE_SPC : List Nat := [0x57]
/-- `CMD_READ_SPC = b'R'` -/
def CMD_READ_SPC : List Nat := [0x52]

/-- The `DISPLAY_MODE` class dictionary: symbolic name to single-byte code. -/
def DISPLAY_MODE : List (String × Nat) :=
  [("auto", 0x41), ("flash", 0x42), ("hold", 0x43), ("interlock", 0x44),
   ("rolldown", 0x45), ("rollup", 0x46), ("rollin", 0x47), ("rollleft", 0x49),
   ("rollright", 0x4A), ("rotate", 0x4B), ("slide", 0x4C), ("snow", 0x4D),
   ("sparkle", 0x4E), ("spray", 0x4F), ("starburst", 0x50), ("switch", 0x51),
   ("twinkle", 0x52), ("wipedown", 0x53), ("wipeup", 0x54), ("wipein", 0x55),
   ("wipeout", 0x56), ("wipeleft", 0x57), ("wiperight", 0x58),
   ("cyclecolor", 0x59), ("clock", 0x5A)]

/-- The `DISPLAY_SPEED` class dictionary. -/
def DISPLAY_SPEED : List (String × Nat) :=
  [("faster", 0x30), ("fast", 0x31), ("normal", 0x32), ("slow", 0x33),
   ("slower", 0x34)]

/-- The `ALIGN` class dictionary. -/
def ALIGN : List (String × Nat) :=
  [("left", 0x31), ("right", 0x32), ("center", 0x33)]

/-- The `FONT` class dictionary (lead character 0xFE). -/
def FONT : List (String × Nat) :=
  [("SS5", 0x41), ("ST5", 0x42), ("WD5", 0x43), ("WS5", 0x44),
   ("SS7", 0x45), ("ST7", 0x46), ("WD7", 0x47), ("WS7", 0x48),
   ("SDS", 0x49), ("SRF", 0x4A), ("STF", 0x4B), ("WDF", 0x4C),
   ("WSF", 0x4D), ("SDF", 0x4E), ("SS10", 0x4F), ("ST10", 0x50),
   ("WD10", 0x51), ("WS10", 0x52), ("SS15", 0x53), ("ST15", 0x54),
   ("WD15", 0x55), ("WS15", 0x56), ("SS23", 0x57), ("SS31", 0x58),
   ("SMALL", 0x40)]

/-- The `COLOR` class dictionary (lead character 0xFD). -/
def COLOR : List (String × Nat) :=
  [("auto", 0x41), ("lightred", 0x42), ("lightgreen", 0x43), ("red", 0x44),
   ("green", 0x45), ("yellow", 0x46), ("brown", 0x47), ("amber", 0x48),
   ("orange", 0x49), ("mix1", 0x4A), ("mix2", 0x4B), ("mixh", 0x4C),
   ("black", 0x4D)]

/-- The `SYMBOLS` class dictionary. -/
def SYMBOLS : List (String × Nat) :=
  [("sunburst", 0xD0), ("clock", 0xD1), ("telephone", 0xD2),
   ("sunglasses", 0xD3), ("faucet", 0xD4), ("bug", 0xD5), ("key", 0xD6),
   ("shirt", 0xD7), ("helicopter", 0xD8), ("car", 0xD9), ("lantern", 0xDA),
   ("pyramid", 0xDB), ("whale", 0xDC), ("scooter", 0xDD), ("bicycle", 0xDE),
   ("crown", 0xDF), ("dheart", 0xE0), ("rarrow", 0xE1), ("larrow", 0xE2),
   ("ldarrow", 0xE3), ("luarrow", 0xE4), ("gas", 0xE5), ("chair", 0xE6),
   ("shoe", 0xE7), ("martini", 0xE8), ("envelope", 0xE9), ("hamburger", 0xEA)]

/-- The mutable attributes a `MovingSign` instance carries (set in `__init__`,
read by the encoders, written by the `set_*` setters). -/
structure State where
  sdr_addr : List Nat
  rcv_addr : List Nat
  filename : List Nat
  display_mode : List Nat
  display_speed : List Nat
  pause_time : List Nat
  show_date : List Nat
  start_time : List Nat
  stop_time : List Nat
  prep : List Nat
  align : List Nat
  header : List Nat
deriving Repr, DecidableEq

/-- `__init__(self, sdr_addr=b"FF", rcv_addr=b"00")`: the field defaults. -/
def init (sdr_addr rcv_addr : List Nat) : State :=
  { sdr_addr := sdr_addr
    rcv_addr := rcv_addr
    filename := [0x41]
    display_mode := [0x41]
    display_speed := [0x32]
    pause_time := [0x32]
    show_date := [0x37, 0x46]
    start_time := [0x30, 0x30, 0x30, 0x30]
    stop_time := [0x32, 0x34, 0x30, 0x30]
    prep := [0x30, 0x30, 0x30]
    align := [0x33]
    header := [NUL, NUL, NUL, NUL, NUL] }

/-- `MovingSign()`: an instance built with the default addresses
`b"FF"` (`[0x46, 0x46]`) and `b"00"` (`[0x30, 0x30]`). -/
def initState : State := init [0x46, 0x46] [0x30, 0x30]

/-- ASCII byte of one uppercase hex digit, as Python's `X` format produces:
`0`-`9` then `A`-`F`. -/
def hexDigit (n : Nat) : Nat := if n < 10 then 0x30 + n else 0x37 + n

/-- Uppercase hex digits of `n`, least significant first, as Python's `X`
formatting computes them (repeated division by 16); `fuel` bounds the
recursion and any `fuel ≥ n` yields the exact digit string. -/
def toHexRevFuel : Nat → Nat → List Nat
  | _, 0 => []
  | 0, _ + 1 => []
  | fuel + 1, n + 1 =>
      hexDigit ((n + 1) % 16) :: toHexRevFuel fuel ((n + 1) / 16)

/-- Python 2 `'{:04X}'.format(val)`: the uppercase hexadecimal digits of
`val` (`"0"` when `val = 0`), left-padded with `'0'` to a minimum width of
4 characters — wider when `val` needs more than 4 digits. -/
def format04X (val : Nat) : List Nat :=
  let digits := if val = 0 then [0x30] else (toHexRevFuel val val).reverse
  List.replicate (4 - digits.length) 0x30 ++ digits

/-- `checksum(self, mesg)`: `val = sum(bytearray(mesg))` then
`b'{:04X}'.format(val)`. -/
def checksum (mesg : List Nat) : List Nat := format04X mesg.sum

/-- `set_sdr_addr(self, sender)` -/
def set_sdr_addr (s : State) (sender : List Nat) : State :=
  { s with sdr_addr := sender }

/-- `set_rcv_addr(self, receiver)` -/
def set_rcv_addr (s : State) (receiver : List Nat) : State :=
  { s with rcv_addr := receiver }

/-- `set_text_mode(self, display_mode)` -/
def set_text_mode (s : State) (display_mode : List Nat) : State :=
  { s with display_mode := display_mode }

/-- `set_text_speed(self, display_speed)` -/
def set_text_speed (s : State) (display_speed : List Nat) : State :=
  { s with display_speed := display_speed }

/-- `set_text_align(self, align)` -/
def set_text_align (s : State) (align : List Nat) : State :=
  { s with align := align }

/-- `protocol(self, mesg)`: header + SOH + sdr_addr + rcv_addr + mesg +
checksum(mesg) + EOT.  The method assigns no attribute of `self`, so the
instance state comes back unchanged. -/
def protocol (s : State) (mesg : List Nat) : List Nat × State :=
  let cmd : List Nat := []
  let cmd := cmd ++ s.header
  let cmd := cmd ++ [SOH]
  let cmd := cmd ++ s.sdr_addr
  let cmd := cmd ++ s.rcv_addr
  let cmd := cmd ++ mesg
  let cmd := cmd ++ checksum mesg
  let cmd := cmd ++ [EOT]
  (cmd, s)

/-- `cmd_txt(self, data)`: Write text command body, then `protocol`. -/
def cmd_txt (s : State) (data : List Nat) : List Nat × State :=
  let mesg : List Nat := [STX]
  let mesg := mesg ++ CMD_WRITE_TXT
  let mesg := mesg ++ s.filename
  let mesg := mesg ++ s.display_mode
  let mesg := mesg ++ s.display_speed
  let mesg := mesg ++ s.pause_time
  let mesg := mesg ++ s.show_date
  let mesg := mesg ++ s.start_time
  let mesg := mesg ++ s.stop_time
  let mesg := mesg ++ s.prep
  let mesg := mesg ++ s.align
  let mesg := mesg ++ data
  let mesg := mesg ++ [ETX]
  protocol s mesg

/-- `cmd_var(self, var, attr, data)`: Write variable command. -/
def cmd_var (s : State) (var attr data : List Nat) : List Nat × State :=
  let mesg : List Nat := [STX]
  let mesg := mesg ++ CMD_WRITE_VAR
  let mesg := mesg ++ var
  let mesg := mesg ++ attr
  let mesg := mesg ++ data
  let mesg := mesg ++ [ETX]
  protocol s mesg

/-- `cmd_gfx(self, attr, data)`: Write graphics command. -/
def cmd_gfx (s : State) (attr data : List Nat) : List Nat × State :=
  let mesg : List Nat := [STX]
  let mesg := mesg ++ CMD_WRITE_GFX
  let mesg := mesg ++ s.filename
  let mesg := mesg ++ attr
  let mesg := mesg ++ data
  let mesg := mesg ++ [ETX]
  protocol s mesg

/-- `cmd_write_special(self, data)`: Write special-function command. -/
def cmd_write_special (s : State) (data : List Nat) : List Nat × State :=
  let mesg : List Nat := [STX]
  let mesg := mesg ++ CMD_WRITE_SPC
  let mesg := mesg ++ data
  let mesg := mesg ++ [ETX]
  protocol s mesg

/-- `cmd_read_special(self, data)`: Read special-function command. -/
def cmd_read_special (s : State) (data : List Nat) : List Nat × State :=
  let mesg : List Nat := [STX]
  let mesg := mesg ++ CMD_READ_SPC
  let mesg := mesg ++ data
  let mesg := mesg ++ [ETX]
  protocol s mesg

/-- `clear(self)`: `cmd_write_special('L')`. -/
def clear (s : State) : List Nat × State := cmd_write_special s [0x4C]

/-- `reset(self)`: `cmd_write_special('B')`. -/
def reset (s : State) : List Nat × State := cmd_write_special s [0x42]

/-- `clock(self, datetimeweek)`: `cmd_write_special(b'A' + datetimeweek)`. -/
def clock (s : State) (datetimeweek : List Nat) : List Nat × State :=
  cmd_write_special s ([0x41] ++ datetimeweek)

/-- `passwd(self, passwd)`: `cmd_write_special(b'C' + passwd)`. -/
def passwd (s : State) (pw : List Nat) : List Nat × State :=
  cmd_write_special s ([0x43] ++ pw)

/-- `set_dev_num(self, num)`: `cmd_write_special(b'D' + num)`. -/
def set_dev_num (s : State) (num : List Nat) : List Nat × State :=
  cmd_write_special s ([0x44] ++ num)

/-- `set_display_times(self, display_times)`:
`cmd_write_special(b'E' + display_times)`. -/
def set_display_times (s : State) (display_times : List Nat) :
    List Nat × State :=
  cmd_write_special s ([0x45] ++ display_times)

/-- `set_display_mode(self, display_time)`: its body evaluates
`b'F' + display_mode`, but `display_mode` is not the parameter (that is
`display_time`) and is bound in no enclosing scope, so every call raises
`NameError` before any frame is built; modelled as `none`. -/
def set_display_mode (s : State) (display_time : List Nat) :
    Option (List Nat × State) :=
  none

/-- `set_cue_voice(self, cue)`: `cmd_write_special(b'J' + cue)`. -/
def set_cue_voice (s : State) (cue : List Nat) : List Nat × State :=
  cmd_write_special s ([0x4A] ++ cue)

/-- `set_passwd_mode(self, mode)`: `cmd_write_special(b'K' + mode)`. -/
def set_passwd_mode (s : State) (mode : List Nat) : List Nat × State :=
  cmd_write_special s ([0x4B] ++ mode)

/-- `set_brightness(self, level)`: `cmd_write_special(b'P' + level)`. -/
def set_brightness (s : State) (level : List Nat) : List Nat × State :=
  cmd_write_special s ([0x50] ++ level)

end MovingSign

/-! ## Proof-side definitions -/

namespace MovingSign

/-- Uppercase hex digits of `n`, least significant first, without a fuel
bound (well-founded recursion on `n`); matches `toHexRevFuel fuel n` for
any `fuel ≥ n`. -/
def hexDigitsRev : Nat → List Nat
  | 0 => []
  | n + 1 => hexDigit ((n + 1) % 16) :: hexDigitsRev ((n + 1) / 16)
decreasing_by simp_wf; omega

/-- A byte that is an uppercase hexadecimal ASCII digit: `'0'`-`'9'` or
`'A'`-`'F'`. -/
def IsUpperHexDigit (b : Nat) : Prop :=
  (0x30 ≤ b ∧ b ≤ 0x39) ∨ (0x41 ≤ b ∧ b ≤ 0x46)

/-- The spec's checksum encoding ("encode the sum as uppercase hexadecimal,
zero-padded to exactly 4 digits, as ASCII bytes"): the four hex nibbles of
`n`, most significant first, each as an uppercase-hex ASCII byte.  For
`n ≤ 0xFFFF` this is exactly the zero-padded 4-digit uppercase hex
rendering of `n`. -/
def spec_hex4 (n : Nat) : List Nat :=
  [hexDigit (n / 4096 % 16), hexDigit (n / 256 % 16),
   hexDigit (n / 16 % 16), hexDigit (n % 16)]

/-- Session-relative structural frame shape: a 5-byte NUL header, SOH, the
session's sender and receiver addresses, a body opening with STX and
closing with ETX, the checksum of that body, and EOT. -/
def IsFramed (s : State) (frame : List Nat) : Prop :=
  ∃ body : List Nat,
    frame = [NUL, NUL, NUL, NUL, NUL] ++ [SOH] ++ s.sdr_addr ++ s.rcv_addr ++
        body ++ checksum body ++ [EOT] ∧
    body.head? = some STX ∧ body.getLast? = some ETX

/-- One code table is a well-defined injective map into single bytes: its
names are pairwise distinct, its codes are pairwise distinct, and every
code is one byte. -/
def TableInjective (t : List (String × Nat)) : Prop :=
  (t.map Prod.fst).Nodup ∧ (t.map Prod.snd).Nodup ∧ ∀ p ∈ t, p.2 < 256

/-! ## Helper lemmas about the hex formatter -/

lemma hexDigitsRev_zero : hexDigitsRev 0 = [] := by
  simp [hexDigitsRev]

lemma hexDigitsRev_eq (n : Nat) (h : n ≠ 0) :
    hexDigitsRev n = hexDigit (n % 16) :: hexDigitsRev (n / 16) := by
  obtain ⟨m, rfl⟩ := Nat.exists_eq_succ_of_ne_zero h
  simp [hexDigitsRev]

lemma toHexRevFuel_eq (fuel n : Nat) (h : n ≤ fuel) :
    toHexRevFuel fuel n = hexDigitsRev n := by
  induction fuel generalizing n with
  | zero =>
      have hn : n = 0 := by omega
      subst hn
      simp [toHexRevFuel, hexDigitsRev_zero]
  | succ f ih =>
      cases n with
      | zero => simp [toHexRevFuel, hexDigitsRev_zero]
      | succ m =>
          rw [show toHexRevFuel (f + 1) (m + 1) =
              hexDigit ((m + 1) % 16) :: toHexRevFuel f ((m + 1) / 16) from
              rfl]
          rw [hexDigitsRev_eq (m + 1) (Nat.succ_ne_zero m)]
          congr 1
          exact ih _ (by omega)

lemma hexDigitsRev_lt16 (n : Nat) (h0 : n ≠ 0) (h : n < 16) :
    hexDigitsRev n = [hexDigit n] := by
  rw [hexDigitsRev_eq n h0, Nat.mod_eq_of_lt h,
    show n / 16 = 0 from Nat.div_eq_of_lt h, hexDigitsRev_zero]

lemma hexDigitsRev_lt256 (n : Nat) (h0 : 16 ≤ n) (h : n < 256) :
    hexDigitsRev n = [hexDigit (n % 16), hexDigit (n / 16)] := by
  rw [hexDigitsRev_eq n (by omega),
    hexDigitsRev_lt16 (n / 16) (by omega) (by omega)]

lemma hexDigitsRev_lt4096 (n : Nat) (h0 : 256 ≤ n) (h : n < 4096) :
    hexDigitsRev n =
      [hexDigit (n % 16), hexDigit (n / 16 % 16), hexDigit (n / 256)] := by
  rw [hexDigitsRev_eq n (by omega),
    hexDigitsRev_lt256 (n / 16) (by omega) (by omega)]
  rw [show n / 16 / 16 = n / 256 by omega]

lemma hexDigitsRev_lt65536 (n : Nat) (h0 : 4096 ≤ n) (h : n < 65536) :
    hexDigitsRev n =
      [hexDigit (n % 16), hexDigit (n / 16 % 16), hexDigit (n / 256 % 16),
       hexDigit (n / 4096)] := by
  rw [hexDigitsRev_eq n (by omega),
    hexDigitsRev_lt4096 (n / 16) (by omega) (by omega)]
  rw [show n / 16 / 16 = n / 256 by omega,
    show n / 16 / 256 = n / 4096 by omega]

lemma format04X_eq_spec_hex4 (n : Nat) (hn : n ≤ 0xFFFF) :
    format04X n = spec_hex4 n := by
  by_cases h0 : n = 0
  · subst h0; decide
  · simp only [format04X, if_neg h0, toHexRevFuel_eq n n le_rfl]
    by_cases h1 : n < 16
    · have hs : spec_hex4 n = [0x30, 0x30, 0x30, hexDigit n] := by
        unfold spec_hex4
        rw [show n / 4096 % 16 = 0 by omega, show n / 256 % 16 = 0 by omega,
          show n / 16 % 16 = 0 by omega, Nat.mod_eq_of_lt h1]
        rfl
      rw [hexDigitsRev_lt16 n h0 h1, hs]
      rfl
    · by_cases h2 : n < 256
      · have hs : spec_hex4 n =
            [0x30, 0x30, hexDigit (n / 16), hexDigit (n % 16)] := by
          unfold spec_hex4
          rw [show n / 4096 % 16 = 0 by omega,
            show n / 256 % 16 = 0 by omega, show n / 16 % 16 = n / 16 by omega]
          rfl
        rw [hexDigitsRev_lt256 n (by omega) h2, hs]
        rfl
      · by_cases h3 : n < 4096
        · have hs : spec_hex4 n =
              [0x30, hexDigit (n / 256), hexDigit (n / 16 % 16),
               hexDigit (n % 16)] := by
            unfold spec_hex4
            rw [show n / 4096 % 16 = 0 by omega,
              show n / 256 % 16 = n / 256 by omega]
            rfl
          rw [hexDigitsRev_lt4096 n (by omega) h3, hs]
          rfl
        · have hs : spec_hex4 n =
              [hexDigit (n / 4096), hexDigit (n / 256 % 16),
               hexDigit (n / 16 % 16), hexDigit (n % 16)] := by
            unfold spec_hex4
            rw [show n / 4096 % 16 = n / 4096 by omega]
          rw [hexDigitsRev_lt65536 n (by omega) (by omega), hs]
          rfl

lemma isUpperHexDigit_hexDigit (m : Nat) (h : m < 16) :
    IsUpperHexDigit (hexDigit m) := by
  simp only [IsUpperHexDigit, hexDigit]
  split <;> omega

/-- The body of `cmd_txt` opens with STX and closes with ETX, so any
`cmd_txt` result of a session with the 5-NUL header has the structural
frame shape, whatever the session's field values are. -/
lemma cmd_txt_isFramed (s : State) (data : List Nat)
    (hheader : s.header = [NUL, NUL, NUL, NUL, NUL]) :
    IsFramed s (cmd_txt s data).1 := by
  refine ⟨[STX] ++ CMD_WRITE_TXT ++ s.filename ++ s.display_mode ++
    s.display_speed ++ s.pause_time ++ s.show_date ++ s.start_time ++
    s.stop_time ++ s.prep ++ s.align ++ data ++ [ETX], ?_, rfl, ?_⟩
  · simp [cmd_txt, protocol, hheader]
  · rw [List.getLast?_append_of_ne_nil _ (by simp)]
    rfl

/-- The length of a `protocol` frame is the sum of the lengths of its
seven segments. -/
lemma protocol_fst_length (s : State) (mesg : List Nat) :
    ((protocol s mesg).1).length =
      s.header.length + 1 + s.sdr_addr.length + s.rcv_addr.length +
        mesg.length + (checksum mesg).length + 1 := by
  simp [protocol]
  omega

set_option maxRecDepth 8000

/-! ## The claims -/

/-- C1: the claim that `checksum` always returns exactly 4 uppercase hex
characters fails on the code: on a 258-byte body whose bytes sum to
0x10041, `'{:04X}'.format` pads to a minimum of 4 digits but never
truncates, so the code returns the 5-character string `"10041"` —
contradicting the method's own "checksum of 4 bytes" docstring. -/
theorem checksum_overflow_not_four_chars :
    checksum (List.replicate 257 0xFF ++ [0x42]) =
      [0x31, 0x30, 0x30, 0x34, 0x31] ∧
    (checksum (List.replicate 257 0xFF ++ [0x42])).length = 5 := by
  have h : (List.replicate 257 (0xFF : Nat) ++ [0x42]).sum = 0x10041 := by
    simp [List.sum_replicate, smul_eq_mul]
  refine ⟨?_, ?_⟩ <;> simp only [checksum, h] <;> decide

/-- C2: whenever the byte-sum of the input fits in 4 hex digits
(sum ≤ 0xFFFF), `checksum` returns exactly that sum rendered as 4
zero-padded uppercase hexadecimal ASCII bytes (`spec_hex4`, written from
the spec's encoding words). -/
theorem checksum_small_sum_spec (mesg : List Nat) (h : mesg.sum ≤ 0xFFFF) :
    checksum mesg = spec_hex4 mesg.sum ∧
    (checksum mesg).length = 4 ∧
    ∀ b ∈ checksum mesg, IsUpperHexDigit b := by
  have e : checksum mesg = spec_hex4 mesg.sum :=
    format04X_eq_spec_hex4 mesg.sum h
  refine ⟨e, ?_, ?_⟩
  · rw [e]; rfl
  · intro b hb
    rw [e] at hb
    simp only [spec_hex4, List.mem_cons, List.not_mem_nil, or_false] at hb
    rcases hb with hb | hb | hb | hb <;> subst hb <;>
      exact isUpperHexDigit_hexDigit _ (Nat.mod_lt _ (by norm_num))

/-- Witness for C2: the body `[0x41]` sums to 0x41 and its checksum is the
ASCII string `"0041"`. -/
theorem checksum_small_sum_spec_witness :
    (checksum [0x41] = spec_hex4 ([0x41] : List Nat).sum ∧
     (checksum [0x41]).length = 4 ∧
     ∀ b ∈ checksum [0x41], IsUpperHexDigit b) ∧
    checksum [0x41] = [0x30, 0x30, 0x34, 0x31] :=
  ⟨checksum_small_sum_spec [0x41] (by decide), by decide⟩

/-- C3: for any session whose header attribute is the 5-NUL default,
`protocol` returns exactly header ++ SOH ++ sender ++ receiver ++ body ++
checksum-of-the-body-only ++ EOT. -/
theorem protocol_frame_layout (s : State) (mesg : List Nat)
    (hheader : s.header = [NUL, NUL, NUL, NUL, NUL]) :
    (protocol s mesg).1 =
      [NUL, NUL, NUL, NUL, NUL] ++ [SOH] ++ s.sdr_addr ++ s.rcv_addr ++
        mesg ++ checksum mesg ++ [EOT] := by
  simp [protocol, hheader]

/-- Witness for C3 at the default session and the body `[STX, ETX]`. -/
theorem protocol_frame_layout_witness :
    (protocol initState [0x02, 0x03]).1 =
      [NUL, NUL, NUL, NUL, NUL] ++ [SOH] ++ initState.sdr_addr ++
        initState.rcv_addr ++ [0x02, 0x03] ++ checksum [0x02, 0x03] ++
        [EOT] :=
  protocol_frame_layout initState [0x02, 0x03] rfl

/-- C4: the frame-length invariant `len(frame) = len(body) + 15` fails on
the code: a 258-byte body summing to 0x10000 gets a 5-byte checksum, so
its frame (with the default 2-byte addresses) is `len(body) + 16` bytes. -/
theorem protocol_overflow_frame_length :
    ((protocol initState (List.replicate 257 0xFF ++ [0x01])).1).length =
      (List.replicate 257 (0xFF : Nat) ++ [0x01]).length + 16 ∧
    ¬ ((protocol initState (List.replicate 257 0xFF ++ [0x01])).1).length =
      (List.replicate 257 (0xFF : Nat) ++ [0x01]).length + 15 := by
  have h : (List.replicate 257 (0xFF : Nat) ++ [0x01]).sum = 0x10000 := by
    simp [List.sum_replicate, smul_eq_mul]
  have hc : checksum (List.replicate 257 (0xFF : Nat) ++ [0x01]) =
      [0x31, 0x30, 0x30, 0x30, 0x30] := by
    simp only [checksum, h]; decide
  have hl : (List.replicate 257 (0xFF : Nat) ++ [0x01]).length = 258 := by
    simp
  constructor <;> rw [protocol_fst_length, hc, hl] <;> decide

/-- C5: the claim that `set_display_mode` returns a frame whose payload
byte equals the caller's argument fails on the code: the method body
evaluates the undefined name `display_mode` (the parameter is
`display_time`), so every call raises `NameError` and no frame — in
particular not the special-function frame for `'F' + 'A'` — is
returned. -/
theorem set_display_mode_always_fails :
    (∀ (s : State) (mode : List Nat), set_display_mode s mode = none) ∧
    set_display_mode initState [0x41] ≠
      some (cmd_write_special initState ([0x46] ++ [0x41])) :=
  ⟨fun _ _ => rfl, by simp [set_display_mode]⟩

/-- C6: `cmd_txt` builds exactly STX, 'A', filename, display_mode,
display_speed, pause_time, show_date, start_time, stop_time, prep, align,
the payload unchanged, ETX, and wraps it via `protocol`; the empty payload
still yields a structurally valid frame. -/
theorem cmd_txt_body_layout (s : State) (data : List Nat)
    (hheader : s.header = [NUL, NUL, NUL, NUL, NUL]) :
    cmd_txt s data =
      protocol s ([STX] ++ CMD_WRITE_TXT ++ s.filename ++ s.display_mode ++
        s.display_speed ++ s.pause_time ++ s.show_date ++ s.start_time ++
        s.stop_time ++ s.prep ++ s.align ++ data ++ [ETX]) ∧
    IsFramed s (cmd_txt s []).1 :=
  ⟨rfl, cmd_txt_isFramed s [] hheader⟩

/-- Witness for C6 at the default session with the empty payload. -/
theorem cmd_txt_body_layout_witness :
    cmd_txt initState [] =
      protocol initState ([STX] ++ CMD_WRITE_TXT ++ initState.filename ++
        initState.display_mode ++ initState.display_speed ++
        initState.pause_time ++ initState.show_date ++ initState.start_time ++
        initState.stop_time ++ initState.prep ++ initState.align ++ [] ++
        [ETX]) ∧
    IsFramed initState (cmd_txt initState []).1 :=
  cmd_txt_body_layout initState [] rfl

/-- C7: on a freshly constructed session, `clear()` is the special-function
frame for subcommand 'L': body `STX 'W' 'L' ETX`, sender `"FF"`, receiver
`"00"`, checksum `"00A8"`. -/
theorem clear_default_session_frame :
    clear initState = protocol initState [STX, 0x57, 0x4C, ETX] ∧
    (clear initState).1 =
      [0x00, 0x00, 0x00, 0x00, 0x00, 0x01, 0x46, 0x46, 0x30, 0x30,
       0x02, 0x57, 0x4C, 0x03, 0x30, 0x30, 0x41, 0x38, 0x04] ∧
    initState.sdr_addr = [0x46, 0x46] ∧ initState.rcv_addr = [0x30, 0x30] := by
  decide

/-- C8: in each of the six code tables the symbolic names are pairwise
distinct, the codes are pairwise distinct (each table is injective), and
every code is a single byte. -/
theorem code_tables_injective :
    TableInjective DISPLAY_MODE ∧ TableInjective DISPLAY_SPEED ∧
    TableInjective ALIGN ∧ TableInjective FONT ∧ TableInjective COLOR ∧
    TableInjective SYMBOLS := by
  unfold TableInjective
  decide

/-- C9: whatever byte strings the session's fields hold — codes absent from
the tables, fixed-width fields of the wrong width, anything — `cmd_txt`
still returns a structurally shaped frame (NUL header, SOH, addresses,
STX…ETX body, checksum of the body, EOT). -/
theorem cmd_txt_arbitrary_fields_framed (s : State) (data : List Nat)
    (hheader : s.header = [NUL, NUL, NUL, NUL, NUL]) :
    IsFramed s (cmd_txt s data).1 :=
  cmd_txt_isFramed s data hheader

/-- Witness for C9: a session whose filename is 2 bytes wide and whose
display_speed is empty still produces a structurally shaped frame. -/
theorem cmd_txt_arbitrary_fields_framed_witness :
    IsFramed { initState with filename := [0x41, 0x41], display_speed := [] }
      (cmd_txt { initState with filename := [0x41, 0x41], display_speed := [] }
        [0xFF]).1 :=
  cmd_txt_arbitrary_fields_framed _ _ rfl

/-- C10: every frame-producing operation returns the session unchanged,
and each setter rewrites exactly its one target field. -/
theorem operations_preserve_session (s : State)
    (mesg var attr data dtw pw num dts cue pm level sender receiver dm dsp
      al : List Nat) :
    (protocol s mesg).2 = s ∧ (cmd_txt s data).2 = s ∧
    (cmd_var s var attr data).2 = s ∧ (cmd_gfx s attr data).2 = s ∧
    (cmd_write_special s data).2 = s ∧ (cmd_read_special s data).2 = s ∧
    (clear s).2 = s ∧ (reset s).2 = s ∧ (clock s dtw).2 = s ∧
    (passwd s pw).2 = s ∧ (set_dev_num s num).2 = s ∧
    (set_display_times s dts).2 = s ∧ (set_cue_voice s cue).2 = s ∧
    (set_passwd_mode s pm).2 = s ∧ (set_brightness s level).2 = s ∧
    set_sdr_addr s sender = { s with sdr_addr := sender } ∧
    set_rcv_addr s receiver = { s with rcv_addr := receiver } ∧
    set_text_mode s dm = { s with display_mode := dm } ∧
    set_text_speed s dsp = { s with display_speed := dsp } ∧
    set_text_align s al = { s with align := al } :=
  ⟨rfl, rfl, rfl, rfl, rfl, rfl, rfl, rfl, rfl, rfl, rfl, rfl, rfl, rfl,
   rfl, rfl, rfl, rfl, rfl, rfl⟩

end MovingSign
